import Mathlib

/-!
# Verification of easypsyco against its specification

A shallow embedding of `easypsyco/easypsyco.py`, a thin scoping layer over a
relational database driver, together with proofs about:

* the bulk-`insert` helper (statement assembly, UUID serialization, empty no-op),
* the `QueryableMock` / `SelectMock` test double (prefix-anchored regex
  dispatch, canned-row replay, parameter independence),
* `Database.__init__` configuration validation,
* the scope machinery `Database` / `Session` / `Transaction` / `Select`
  (enter chains, reentrancy assertions, teardown ordering), and
* the `GlobalSession` singleton.

Driver interactions (psycopg2 connections and cursors) are modelled as an
event trace; Python exceptions are modelled with explicit `Option`/`Except`
results, and `try/finally` with an explicit exception-resolution helper.
-/

namespace Easypsyco

/-! ## Values and the `_serialize` helper

Python values that may appear in a row mapping.  A `uuid.UUID` value is
modelled by `vUuid u` where `u` is its canonical string form (what Python's
`str()` returns on it). -/

inductive Value : Type
  | vStr (s : String)
  | vInt (n : Int)
  | vUuid (u : String)
  | vNone
deriving DecidableEq, Repr

/-- Python `isinstance(value, uuid.UUID)`. -/
def isUuid : Value → Bool
  | .vUuid _ => true
  | _ => false

/-- Python `str(value)` on the values of our model; on a UUID it yields the
canonical string form. -/
def valueStr : Value → String
  | .vStr s => s
  | .vInt n => toString n
  | .vUuid u => u
  | .vNone => "None"

/-- A Python row mapping `Mapping[str, Any]`, with insertion order. -/
abbrev Row : Type := List (String × Value)

/-- `_serialize` from the source: the dict comprehension
`{key: str(value) if isinstance(value, uuid.UUID) else value ...}`. -/
def _serialize (row : Row) : Row :=
  row.map (fun kv => (kv.1, if isUuid kv.2 then Value.vStr (valueStr kv.2) else kv.2))

/-- Spec-side description of per-value serialization, written from the spec's
words: "UUID-typed values are serialized to their string form before binding;
all other types pass through unchanged". -/
def serializeSpec : Value → Value
  | .vUuid u => .vStr u
  | v => v

/-! ## The `insert` helper

`insert(cursor, table, values)` accepts a single mapping or a collection of
mappings.  The driver cursor is modelled by its `mogrify` primitive (an
arbitrary function from a binding pattern and a row to the escaped tuple
text), and the observable behaviour is the trace of driver calls made. -/

/-- The `Union[Collection[Mapping], Mapping]` argument of `insert`. -/
inductive InsertValues : Type
  | single (row : Row)
  | many (rows : List Row)

/-- Python truthiness test `not values` on the `insert` argument: an empty
mapping and an empty collection are both falsy. -/
def InsertValues.falsy : InsertValues → Bool
  | .single r => r.isEmpty
  | .many rs => rs.isEmpty

/-- The normalization `if isinstance(values, Mapping): values = [values]`. -/
def InsertValues.toRows : InsertValues → List Row
  | .single r => [r]
  | .many rs => rs

/-- One observable call on the driver cursor. -/
inductive DriverCall : Type
  | mogrifyCall (pattern : String) (row : Row)
  | executeCall (query : String)
deriving DecidableEq, Repr

/-- `insertion_points`: `','.join([f'"{key}"' for key in keys])`. -/
def insertionPoints (keys : List String) : String :=
  String.intercalate "," (keys.map (fun k => "\"" ++ k ++ "\""))

/-- `insertion_pattern`: `'(' + ','.join(f"%({key})s" for key in keys) + ')'`. -/
def insertionPattern (keys : List String) : String :=
  "(" ++ String.intercalate "," (keys.map (fun k => "%(" ++ k ++ ")s")) ++ ")"

/-- The `insert` helper.  `mogrify` is the driver's parameter-binding
primitive (`cursor.mogrify`); the result is the ordered trace of driver calls
(`mogrify` once per row, then a single `execute` of the assembled query). -/
def insert (mogrify : String → Row → String) (table : String)
    (values : InsertValues) : List DriverCall :=
  if values.falsy then []
  else
    let rows := values.toRows
    let keys := (rows.headD []).map Prod.fst
    let pat := insertionPattern keys
    let vals := String.intercalate "," (rows.map (fun r => mogrify pat (_serialize r)))
    let query := "INSERT INTO \"" ++ table ++ "\" (" ++ insertionPoints keys
      ++ ") VALUES " ++ vals
    rows.map (fun r => DriverCall.mogrifyCall pat (_serialize r))
      ++ [DriverCall.executeCall query]

end Easypsyco

namespace Easypsyco

/-- Project the query out of an execute call. -/
def DriverCall.executedQuery : DriverCall → Option String
  | .executeCall q => some q
  | _ => none

/-- Whether a driver call is an `execute`. -/
def DriverCall.isExecute : DriverCall → Bool
  | .executeCall _ => true
  | _ => false

/-- Project the bound row out of a `mogrify` call. -/
def DriverCall.mogrifiedRow : DriverCall → Option Row
  | .mogrifyCall _ r => some r
  | _ => none

/-! ## Regular expressions and the mock

`QueryableMock.select` dispatches on `re.match(pattern, query)`.  We embed a
core regular-expression language with Brzozowski-derivative matching;
`reMatch` has Python `re.match` semantics: the pattern must match at the
start of the string but need not consume all of it. -/

inductive Regex : Type
  | emptyset
  | eps
  | chr (c : Char)
  | alt (r s : Regex)
  | cat (r s : Regex)
  | star (r : Regex)
deriving DecidableEq, Repr

/-- Whether a regex accepts the empty string. -/
def Regex.nullable : Regex → Bool
  | .emptyset => false
  | .eps => true
  | .chr _ => false
  | .alt r s => r.nullable || s.nullable
  | .cat r s => r.nullable && s.nullable
  | .star _ => true

/-- Brzozowski derivative of a regex with respect to one character. -/
def Regex.deriv : Regex → Char → Regex
  | .emptyset, _ => .emptyset
  | .eps, _ => .emptyset
  | .chr c, a => if a = c then .eps else .emptyset
  | .alt r s, a => .alt (r.deriv a) (s.deriv a)
  | .cat r s, a =>
      if r.nullable then .alt (.cat (r.deriv a) s) (s.deriv a)
      else .cat (r.deriv a) s
  | .star r, a => .cat (r.deriv a) (.star r)

/-- Whole-string match of a regex against a character list. -/
def Regex.rmatch (r : Regex) (s : List Char) : Bool :=
  (s.foldl Regex.deriv r).nullable

/-- Python `re.match(r, s)` truthiness: `r` matches some prefix of `s`
(anchored at the start, not required to span the whole string). -/
def reMatch (r : Regex) (s : List Char) : Bool :=
  s.inits.any r.rmatch

/-! ## `SelectMock` and `QueryableMock` -/

/-- `SelectMock`: holds `self._iter = iter(data)`, i.e. the rows not yet
yielded. `α` is the row type. -/
structure SelectMock (α : Type) : Type where
  remaining : List α
deriving DecidableEq, Repr

/-- `SelectMock.__next__`: yield the next row, or `none` for `StopIteration`. -/
def SelectMock.next {α : Type} : SelectMock α → Option (α × SelectMock α)
  | ⟨[]⟩ => none
  | ⟨x :: xs⟩ => some (x, ⟨xs⟩)

/-- Iterate a `SelectMock` by repeated `__next__` until `StopIteration`,
collecting the yielded rows. -/
def SelectMock.drain {α : Type} : SelectMock α → List α
  | ⟨[]⟩ => []
  | ⟨x :: xs⟩ => x :: SelectMock.drain ⟨xs⟩

/-- `QueryableMock`: the `fakes` mapping from regex pattern to canned rows,
in insertion order (Python dicts preserve insertion order). -/
structure QueryableMock (α : Type) : Type where
  fakes : List (Regex × List α)

/-- The `for k, v in self._fakes.items(): if re.match(k, query): return
SelectMock(v)` loop body of `QueryableMock.select`. -/
def selectScan {α : Type} : List (Regex × List α) → List Char → SelectMock α
  | [], _ => ⟨[]⟩
  | (k, v) :: rest, query =>
      if reMatch k query then ⟨v⟩ else selectScan rest query

/-- `QueryableMock.select(self, query, *args, **kwargs)`. The positional and
keyword arguments are part of the signature but unused by the body. -/
def QueryableMock.select {α : Type} (m : QueryableMock α) (query : List Char)
    (args : List Value) (kwargs : List (String × Value)) : SelectMock α :=
  let _ := args
  let _ := kwargs
  selectScan m.fakes query

/-! ## Scope machinery: Database, Session, Transaction, Select

The observable driver interactions are modelled as an event trace:

* `connOpen`   — the connection factory opens a physical connection
                 (`Database.__enter__`);
* `connEnter`  — `conn.__enter__()`, beginning a driver-level transaction
                 (`Session.__enter__`);
* `connExit`   — `conn.__exit__(...)`, ending the driver-level transaction
                 (commit/rollback) without closing the connection
                 (`Session.__exit__`);
* `connClose`  — `conn.close()`, closing the physical connection
                 (`Database.__exit__`);
* `cursorOpen` — `conn.cursor()` allocating a raw cursor;
* `cursorEnter`/`cursorExit` — the raw cursor's context-manager hooks
                 (exit closes the cursor).

Python exceptions are modelled by an optional `Exc` result; `AssertionError`
is raised by a failing `assert`, and `cursorCloseError` stands for a driver
failure raised by the raw cursor's `__exit__` (used to exercise teardown when
the cursor close fails). -/

inductive Ev : Type
  | connOpen
  | connEnter
  | connExit
  | connClose
  | cursorOpen
  | cursorEnter
  | cursorExit
deriving DecidableEq, Repr

inductive Exc : Type
  | assertionError
  | cursorCloseError
deriving DecidableEq, Repr

/-- Python `try: A finally: B` exception resolution: an exception raised by
the `finally` block replaces the pending one from the body. -/
def tryFinally (bodyExc finallyExc : Option Exc) : Option Exc :=
  match finallyExc with
  | some e => some e
  | none => bodyExc

/-- `Session`: `_transaction` is `None` or an active `Transaction`; only the
presence matters to the assertions, so it is a flag. -/
structure Session : Type where
  txnActive : Bool
deriving DecidableEq, Repr

/-- `Transaction`: `_cursor` is `None` or an active wrapped `Cursor`. -/
structure Transaction : Type where
  curActive : Bool
deriving DecidableEq, Repr

/-- `Transaction.cursor()`: `self._conn.cursor()` — allocates a raw cursor
without touching `self._cursor`. -/
def Transaction.rawCursor (t : Transaction) : List Ev × Transaction :=
  ([.cursorOpen], t)

/-- `Session.__enter__`: asserts no transaction is active, enters the
connection's transaction context and creates a `Transaction`.  Returns the
events, and either the `AssertionError` or the updated session with the new
transaction. -/
def Session.enter (s : Session) : List Ev × Except Exc (Session × Transaction) :=
  if s.txnActive then ([], .error .assertionError)
  else ([.connEnter], .ok (⟨true⟩, ⟨false⟩))

/-- `Session.__exit__`: asserts a transaction is active, then
`try: conn.__exit__(...) finally: self._transaction = None`. -/
def Session.exitScope (s : Session) : List Ev × Except Exc Session :=
  if s.txnActive then ([.connExit], .ok ⟨false⟩)
  else ([], .error .assertionError)

/-- `Transaction.__enter__`: asserts no cursor is active, opens a raw cursor,
wraps it and enters it. -/
def Transaction.enter (t : Transaction) : List Ev × Except Exc Transaction :=
  if t.curActive then ([], .error .assertionError)
  else ([.cursorOpen, .cursorEnter], .ok ⟨true⟩)

/-- `Transaction.__exit__`: asserts a cursor is active, then
`try: self._cursor._cur.__exit__(...) finally: self._cursor = None`. -/
def Transaction.exitScope (t : Transaction) : List Ev × Except Exc Transaction :=
  if t.curActive then ([.cursorExit], .ok ⟨false⟩)
  else ([], .error .assertionError)

/-- `Database.__enter__`: invokes the connection factory (opening a physical
connection) and yields a fresh `Session` bound to it. -/
def Database.enter : List Ev × Session :=
  ([.connOpen], ⟨false⟩)

/-- `Database.__exit__`: `try: self._session._conn.close() finally:
self._session = None` — closes the physical connection. -/
def Database.exitScope : List Ev :=
  [.connClose]

/-- The dynamic type of a `Select`'s parent, with the parent's state. -/
inductive Parent : Type
  | database
  | session (s : Session)
  | transaction (t : Transaction)
deriving DecidableEq, Repr

/-- The scope references a `Select` holds: `_parent` (with its current
state), `_session`, `_transaction`, and whether `_cursor` is set. -/
structure SelectSt : Type where
  parent : Parent
  sessionRef : Option Session
  transactionRef : Option Transaction
  cursorRef : Bool
deriving DecidableEq, Repr

/-- `Select.__enter__`: depending on the dynamic type of `_parent`, opens a
`Session` and/or `Transaction` and a raw cursor, retaining each opened scope,
then enters the cursor.  An `AssertionError` from an intermediate
`__enter__` propagates. -/
def Select.enter (p : Parent) : List Ev × Except Exc SelectSt :=
  match p with
  | .database =>
      let (ev1, s) := Database.enter
      match Session.enter s with
      | (ev2, .ok (s', t)) =>
          let (ev3, t') := t.rawCursor
          (ev1 ++ ev2 ++ ev3 ++ [.cursorEnter],
            .ok ⟨.database, some s', some t', true⟩)
      | (ev2, .error e) => (ev1 ++ ev2, .error e)
  | .session s =>
      match Session.enter s with
      | (ev1, .ok (s', t)) =>
          let (ev2, t') := t.rawCursor
          (ev1 ++ ev2 ++ [.cursorEnter],
            .ok ⟨.session s', none, some t', true⟩)
      | (ev1, .error e) => (ev1, .error e)
  | .transaction t =>
      let (ev1, t') := t.rawCursor
      (ev1 ++ [.cursorEnter], .ok ⟨.transaction t', none, none, true⟩)

/-- The raw cursor's `__exit__`: closes the cursor, or raises when the
driver close fails (`curFail`). -/
def rawCursorExit (curFail : Bool) : List Ev × Option Exc :=
  if curFail then ([], some .cursorCloseError) else ([.cursorExit], none)

/-- The events and exception of one component `__exit__` call, as used inside
`Select.__exit__`. -/
def excOf {β : Type} : List Ev × Except Exc β → List Ev × Option Exc
  | (ev, .ok _) => (ev, none)
  | (ev, .error e) => (ev, some e)

/-- `Select.__exit__`: closes the cursor; then (in a `finally`) exits, per
parent type, the intermediate scopes; then (in an inner `finally`) clears
`_session`, `_transaction` and `_cursor`.  Returns the event trace, the
exception that propagates (if any), and the `Select`'s state afterwards. -/
def Select.exitScope (curFail : Bool) (st : SelectSt) :
    List Ev × Option Exc × SelectSt :=
  let (evCur, excCur) := rawCursorExit curFail
  let (evMid, excMid, parentAfter) :=
    match st.parent with
    | .database =>
        let (evT, excT) := excOf (Transaction.exitScope (st.transactionRef.getD ⟨false⟩))
        let (evS, excS) := excOf (Session.exitScope (st.sessionRef.getD ⟨false⟩))
        (evT ++ evS, tryFinally excT excS, Parent.database)
    | .session s =>
        match Session.exitScope s with
        | (ev, .ok s') => (ev, none, Parent.session s')
        | (ev, .error e) => (ev, some e, Parent.session s)
    | .transaction t => ([], none, Parent.transaction t)
  (evCur ++ evMid, tryFinally excCur (tryFinally excMid none),
    ⟨parentAfter, none, none, false⟩)

/-! ## `Database.__init__` configuration -/

/-- The `Credentials` dataclass. -/
structure Credentials : Type where
  username : String
  password : String
  database : String
  hostname : String := "localhost"
  port : String := "5432"
deriving DecidableEq, Repr

/-- `Credentials.__str__`. -/
def Credentials.render (c : Credentials) : String :=
  "dbname=" ++ c.database ++ " user=" ++ c.username ++ " password=" ++ c.password
    ++ " host=" ++ c.hostname ++ " port=" ++ c.port

/-- A value passed as the positional `arg` of `Database.__init__`; the
`isinstance` chain distinguishes `Credentials`, `str`, `Callable`, and
anything else.  A caller-supplied factory is opaque, tagged by a number. -/
inductive PosArg : Type
  | credentials (c : Credentials)
  | connString (s : String)
  | factory (f : Nat)
  | otherVal
deriving DecidableEq, Repr

/-- The `_connection_factory` stored by `Database.__init__`: either the
closure `lambda: psycopg2.connect(connection_string)` or a caller-supplied
factory. -/
inductive ConnFactory : Type
  | fromConnString (s : String)
  | user (f : Nat)
deriving DecidableEq, Repr

/-- `Database.__init__(arg, *, credentials, connection_string,
connection_factory)`: the positional argument is classified by `isinstance`
and overrides the matching keyword; credentials render to a connection
string; a connection string becomes a connect closure; with no factory left,
`ValueError` is raised. -/
def databaseInit (arg : Option PosArg) (credentials : Option Credentials)
    (connection_string : Option String) (connection_factory : Option Nat) :
    Except String ConnFactory :=
  let (credentials, connection_string, connection_factory) :=
    match arg with
    | some (.credentials c) => (some c, connection_string, connection_factory)
    | some (.connString s) => (credentials, some s, connection_factory)
    | some (.factory f) => (credentials, connection_string, some f)
    | _ => (credentials, connection_string, connection_factory)
  let connection_string :=
    match credentials with
    | some c => some c.render
    | none => connection_string
  let connection_factory : Option ConnFactory :=
    match connection_string with
    | some s => some (.fromConnString s)
    | none => connection_factory.map .user
  match connection_factory with
  | none => .error "no credentials, connection_string, or connection_factory given"
  | some f => .ok f

/-! ## `GlobalSession`

Class-level state: `__database`, `__session`, `__args`.  The stored
constructor arguments are abstracted to a numeric tag (`args`); `database`
records, when present, the argument tag the `Database` was built from. -/

structure GlobalSessionState : Type where
  database : Option Nat
  session : Option Session
  args : Nat
deriving DecidableEq, Repr

/-- The pristine class-level state of `GlobalSession`. -/
def GlobalSessionState.initial : GlobalSessionState :=
  ⟨none, none, 0⟩

/-- `GlobalSession.__init__(*args, **kwargs)`: with arguments (`some a`),
tears down an existing `Database` via `Database.__exit__` (closing its
connection), clears `__session`, and stores the new arguments; without
arguments, does nothing. -/
def GlobalSession.init (args : Option Nat) (g : GlobalSessionState) :
    List Ev × GlobalSessionState :=
  match args with
  | none => ([], g)
  | some a =>
      if g.database.isSome then
        ([.connClose], { database := g.database, session := none, args := a })
      else
        ([], { g with args := a })

/-- `GlobalSession.get()`: when `__database is None`, constructs
`Database(*args, **kwargs)` from the stored arguments, enters it (opening a
connection) and caches the pair; otherwise returns the cached `__session`
(whatever it holds). -/
def GlobalSession.get (g : GlobalSessionState) :
    List Ev × Option Session × GlobalSessionState :=
  match g.database with
  | none =>
      let (ev, s) := Database.enter
      (ev, some s, { database := some g.args, session := some s, args := g.args })
  | some _ => ([], g.session, g)

/-! ## Theorems -/

/-- Pointwise form of the `_serialize` comprehension body. -/
theorem serialize_body_eq (v : Value) :
    (if isUuid v then Value.vStr (valueStr v) else v) = serializeSpec v := by
  cases v <;> rfl

/-- C9: Calling the insert helper with an empty collection of rows is a
no-op: it returns without building a statement and no driver call (no
mogrify, no execute) is performed — the driver-call trace is empty. -/
theorem insert_empty_noop :
    ∀ (mogrify : String → Row → String) (table : String),
      insert mogrify table (.many []) = [] :=
  fun _ _ => rfl

/-- C7: Constructing a `Database` succeeds when exactly one of
{`Credentials`, connection string, zero-argument connection factory} is
supplied, positionally or by keyword (and the resulting connection factory is
the one determined by that argument), and fails with
`ValueError("no credentials, connection_string, or connection_factory
given")` when none of the three is supplied — whether no positional argument
is given at all or the positional argument is of an unrecognized type. -/
theorem database_init_configuration :
    (∀ c, databaseInit (some (.credentials c)) none none none
        = .ok (.fromConnString c.render)) ∧
    (∀ s, databaseInit (some (.connString s)) none none none
        = .ok (.fromConnString s)) ∧
    (∀ f, databaseInit (some (.factory f)) none none none = .ok (.user f)) ∧
    (∀ c, databaseInit none (some c) none none
        = .ok (.fromConnString c.render)) ∧
    (∀ s, databaseInit none none (some s) none = .ok (.fromConnString s)) ∧
    (∀ f, databaseInit none none none (some f) = .ok (.user f)) ∧
    databaseInit none none none none
      = .error "no credentials, connection_string, or connection_factory given" ∧
    databaseInit (some .otherVal) none none none
      = .error "no credentials, connection_string, or connection_factory given" :=
  ⟨fun _ => rfl, fun _ => rfl, fun _ => rfl, fun _ => rfl, fun _ => rfl,
    fun _ => rfl, rfl, rfl⟩

/-- C10: The mock's select result depends only on the query text: two calls
to `QueryableMock.select` with the same query but different (or no)
positional and keyword parameters return the same row source, and iterating
both yields identical row sequences. -/
theorem mock_select_ignores_params :
    ∀ {α : Type} (m : QueryableMock α) (q : List Char)
      (args₁ args₂ : List Value) (kw₁ kw₂ : List (String × Value)),
      m.select q args₁ kw₁ = m.select q args₂ kw₂ ∧
      (m.select q args₁ kw₁).drain = (m.select q args₂ kw₂).drain :=
  fun _ _ _ _ _ _ => ⟨rfl, rfl⟩

/-- C6: Every UUID-typed value in a row passed to the insert helper is
serialized to its string form before binding and every other value passes
through unchanged: `_serialize` rewrites each value by `serializeSpec`
(which maps `vUuid u` to `vStr u` and fixes everything else), and `insert`
hands `mogrify` the serialized row — in particular, inserting
`{"id": <uuid>, "name": "x"}` into table `"t"` binds the UUID as its string
form. -/
theorem insert_uuid_serialization :
    (∀ row : Row, _serialize row = row.map (fun kv => (kv.1, serializeSpec kv.2))) ∧
    (∀ u, serializeSpec (Value.vUuid u) = Value.vStr u) ∧
    (∀ v, isUuid v = false → serializeSpec v = v) ∧
    (∀ mogrify : String → Row → String,
      insert mogrify "t"
          (.single [("id", Value.vUuid "5a8e2696-0001-4de2-9e8b-3ce09e2b3c6a"),
                    ("name", Value.vStr "x")]) =
        [DriverCall.mogrifyCall "(%(id)s,%(name)s)"
            [("id", Value.vStr "5a8e2696-0001-4de2-9e8b-3ce09e2b3c6a"),
             ("name", Value.vStr "x")],
         DriverCall.executeCall ("INSERT INTO \"t\" (\"id\",\"name\") VALUES "
            ++ mogrify "(%(id)s,%(name)s)"
                [("id", Value.vStr "5a8e2696-0001-4de2-9e8b-3ce09e2b3c6a"),
                 ("name", Value.vStr "x")])]) := by
  refine ⟨fun row => ?_, fun u => rfl, fun v h => ?_, fun mogrify => ?_⟩
  · unfold _serialize
    congr 1
    funext kv
    rw [serialize_body_eq]
  · cases v with
    | vUuid u => simp [isUuid] at h
    | vStr s => rfl
    | vInt n => rfl
    | vNone => rfl
  · rfl

/-- Witness for C6 at a concrete non-UUID value. -/
theorem insert_uuid_serialization_witness :
    serializeSpec (Value.vInt 3) = Value.vInt 3 :=
  insert_uuid_serialization.2.2.1 (Value.vInt 3) rfl

/-- A list of `mogrify` calls contains no `execute` call. -/
theorem filter_isExecute_mogrify (pat : String) (f : Row → Row) (rows : List Row) :
    ((rows.map fun r => DriverCall.mogrifyCall pat (f r)).filter
      DriverCall.isExecute) = [] := by
  induction rows with
  | nil => rfl
  | cons r rows ih => simp [DriverCall.isExecute, ih]

/-- Projecting the bound rows out of a list of `mogrify` calls recovers the
rows. -/
theorem filterMap_mogrifiedRow_mogrify (pat : String) (f : Row → Row)
    (rows : List Row) :
    ((rows.map fun r => DriverCall.mogrifyCall pat (f r)).filterMap
      DriverCall.mogrifiedRow) = rows.map f := by
  induction rows with
  | nil => rfl
  | cons r rows ih => simpa [DriverCall.mogrifiedRow] using ih

/-- C5: For a non-empty collection of rows sharing a key set, `insert`
performs one `mogrify` call per row, in input order, on the serialized rows,
followed by exactly one `execute` of a single multi-row INSERT statement
whose column list comes from the first row's keys and whose VALUES clause is
the comma-join of the per-row `mogrify` results (one parenthesized
value-tuple per row; values reach the statement only through `mogrify`). -/
theorem insert_bulk_statement (mogrify : String → Row → String) (table : String)
    (r₀ : Row) (rest : List Row)
    (_hk : ∀ r ∈ rest, r.map Prod.fst = r₀.map Prod.fst) :
    insert mogrify table (.many (r₀ :: rest)) =
      ((r₀ :: rest).map fun r =>
          DriverCall.mogrifyCall (insertionPattern (r₀.map Prod.fst)) (_serialize r))
        ++ [DriverCall.executeCall
            ("INSERT INTO \"" ++ table ++ "\" (" ++ insertionPoints (r₀.map Prod.fst)
              ++ ") VALUES "
              ++ String.intercalate ","
                ((r₀ :: rest).map fun r =>
                  mogrify (insertionPattern (r₀.map Prod.fst)) (_serialize r)))] ∧
    ((insert mogrify table (.many (r₀ :: rest))).filter DriverCall.isExecute).length
      = 1 ∧
    (insert mogrify table (.many (r₀ :: rest))).filterMap DriverCall.mogrifiedRow
      = (r₀ :: rest).map _serialize := by
  have htrace : insert mogrify table (.many (r₀ :: rest)) =
      ((r₀ :: rest).map fun r =>
          DriverCall.mogrifyCall (insertionPattern (r₀.map Prod.fst)) (_serialize r))
        ++ [DriverCall.executeCall
            ("INSERT INTO \"" ++ table ++ "\" (" ++ insertionPoints (r₀.map Prod.fst)
              ++ ") VALUES "
              ++ String.intercalate ","
                ((r₀ :: rest).map fun r =>
                  mogrify (insertionPattern (r₀.map Prod.fst)) (_serialize r)))] := rfl
  refine ⟨htrace, ?_, ?_⟩
  · rw [htrace, List.filter_append, filter_isExecute_mogrify]
    rfl
  · rw [htrace, List.filterMap_append, filterMap_mogrifiedRow_mogrify]
    simp [DriverCall.mogrifiedRow]

/-- Witness for C5: two one-column rows sharing the key `"a"`. -/
theorem insert_bulk_statement_witness :
    insert (fun pat _ => pat) "t"
        (.many [[("a", Value.vInt 1)], [("a", Value.vInt 2)]]) =
      [DriverCall.mogrifyCall "(%(a)s)" [("a", Value.vInt 1)],
       DriverCall.mogrifyCall "(%(a)s)" [("a", Value.vInt 2)],
       DriverCall.executeCall "INSERT INTO \"t\" (\"a\") VALUES (%(a)s),(%(a)s)"] := by
  have hk : ∀ r ∈ [[("a", Value.vInt 2)]],
      List.map Prod.fst r = List.map Prod.fst [("a", Value.vInt 1)] := by
    intro r hr
    rw [List.mem_singleton] at hr
    rw [hr]
    rfl
  have h := (insert_bulk_statement (fun pat _ => pat) "t"
    [("a", Value.vInt 1)] [[("a", Value.vInt 2)]] hk).1
  rw [h]
  rfl

/-- Iterating a `SelectMock` by repeated `__next__` yields its registered
rows. -/
theorem drain_mk {α : Type} (l : List α) : SelectMock.drain ⟨l⟩ = l := by
  induction l with
  | nil => simp [SelectMock.drain]
  | cons x xs ih => simpa [SelectMock.drain] using ih

/-- The `select` scan returns the rows of the first pattern (in insertion
order) that `re.match`-es the query, and no rows when none does. -/
theorem selectScan_eq_find {α : Type} (fakes : List (Regex × List α))
    (q : List Char) :
    selectScan fakes q =
      ⟨match fakes.find? (fun kv => reMatch kv.1 q) with
        | some kv => kv.2
        | none => []⟩ := by
  induction fakes with
  | nil => rfl
  | cons kv rest ih =>
      by_cases h : reMatch kv.1 q
      · simp [selectScan, List.find?, h]
      · simp [selectScan, List.find?, h, ih]

/-- Membership in `List.inits` is splitting off a suffix. -/
theorem mem_inits_iff_append {α : Type} (p s : List α) :
    p ∈ s.inits ↔ ∃ t, p ++ t = s :=
  (List.mem_inits p s).trans Iff.rfl

/-- C4: `QueryableMock.select` scans the patterns in insertion order and
returns the row source of the first pattern matching the query as a
prefix-anchored regular expression (`reMatch r s` holds exactly when `r`
whole-matches some prefix of `s`, not necessarily all of `s`); iterating the
returned row source yields exactly the registered rows in order and then
stops; with no matching pattern it yields zero rows. -/
theorem mock_select_first_match :
    (∀ {α : Type} (m : QueryableMock α) (q : List Char) (args : List Value)
        (kwargs : List (String × Value)),
      (m.select q args kwargs).drain =
        (match m.fakes.find? (fun kv => reMatch kv.1 q) with
          | some kv => kv.2
          | none => []) ∧
      (m.select q args kwargs).remaining =
        (match m.fakes.find? (fun kv => reMatch kv.1 q) with
          | some kv => kv.2
          | none => [])) ∧
    (∀ (r : Regex) (s : List Char),
      reMatch r s = true ↔ ∃ p t, p ++ t = s ∧ r.rmatch p = true) ∧
    (∀ {α : Type} (mock : SelectMock α),
      mock.remaining = [] → mock.next = none) := by
  refine ⟨fun m q args kwargs => ?_, fun r s => ?_, fun mock h => ?_⟩
  · have hscan := selectScan_eq_find m.fakes q
    constructor
    · show (selectScan m.fakes q).drain = _
      rw [hscan, drain_mk]
    · show (selectScan m.fakes q).remaining = _
      rw [hscan]
  · unfold reMatch
    rw [List.any_eq_true]
    constructor
    · rintro ⟨p, hp, hm⟩
      obtain ⟨t, ht⟩ := (mem_inits_iff_append p s).mp hp
      exact ⟨p, t, ht, hm⟩
    · rintro ⟨p, t, ht, hm⟩
      exact ⟨p, (mem_inits_iff_append p s).mpr ⟨t, ht⟩, hm⟩
  · cases mock with
    | mk rem => cases rem with
      | nil => rfl
      | cons x xs => simp at h

/-- C3: `Select.__enter__` builds the minimum chain of intermediate scopes
determined by the dynamic type of its parent and retains each one it opens:
a `Database` parent opens a connection/Session, then a Transaction
(`conn.__enter__`), then a raw cursor; a `Session` parent (with no active
transaction) opens a Transaction, then a raw cursor; a `Transaction` parent
opens a raw cursor directly — the retained references being exactly the
scopes opened. -/
theorem select_enter_chain :
    Select.enter .database =
      ([.connOpen, .connEnter, .cursorOpen, .cursorEnter],
        .ok ⟨.database, some ⟨true⟩, some ⟨false⟩, true⟩) ∧
    (∀ s : Session, s.txnActive = false →
      Select.enter (.session s) =
        ([.connEnter, .cursorOpen, .cursorEnter],
          .ok ⟨.session ⟨true⟩, none, some ⟨false⟩, true⟩)) ∧
    (∀ t : Transaction,
      Select.enter (.transaction t) =
        ([.cursorOpen, .cursorEnter], .ok ⟨.transaction t, none, none, true⟩)) := by
  refine ⟨rfl, fun s h => ?_, fun t => ?_⟩
  · cases s with
    | mk b =>
        simp only [Session.txnActive] at h
        subst h
        rfl
  · cases t with
    | mk b => rfl

/-- Witness for C3 at a parent `Session` with no active transaction. -/
theorem select_enter_chain_witness :
    Select.enter (.session ⟨false⟩) =
      ([.connEnter, .cursorOpen, .cursorEnter],
        .ok ⟨.session ⟨true⟩, none, some ⟨false⟩, true⟩) :=
  select_enter_chain.2.1 ⟨false⟩ rfl

/-- C8: Entering a `Session` whose `Transaction` is already active, or a
`Transaction` whose `Cursor` is already active, fails fast with an
`AssertionError` before touching the driver; entering when nothing is active
does not trigger the check and opens the nested scope. -/
theorem nested_scope_reentrancy_assertion :
    (∀ s : Session, s.txnActive = true →
      Session.enter s = ([], .error .assertionError)) ∧
    (∀ t : Transaction, t.curActive = true →
      Transaction.enter t = ([], .error .assertionError)) ∧
    Session.enter ⟨false⟩ = ([.connEnter], .ok (⟨true⟩, ⟨false⟩)) ∧
    Transaction.enter ⟨false⟩ = ([.cursorOpen, .cursorEnter], .ok ⟨true⟩) := by
  refine ⟨fun s h => ?_, fun t h => ?_, rfl, rfl⟩
  · cases s with
    | mk b =>
        simp only [Session.txnActive] at h
        subst h
        rfl
  · cases t with
    | mk b =>
        simp only [Transaction.curActive] at h
        subst h
        rfl

/-- Witness for C8 at a session and a transaction that are already active. -/
theorem nested_scope_reentrancy_witness :
    Session.enter ⟨true⟩ = ([], .error .assertionError) ∧
    Transaction.enter ⟨true⟩ = ([], .error .assertionError) :=
  ⟨nested_scope_reentrancy_assertion.1 ⟨true⟩ rfl,
    nested_scope_reentrancy_assertion.2.1 ⟨true⟩ rfl⟩

/-- C1 (failing input): a `Select` entered from a `Database` parent and then
exited normally.  On exit the code closes the cursor and ends the session's
transaction context, but `Transaction.__exit__` raises `AssertionError`
(its cursor was obtained via `Transaction.cursor()`, which never sets
`_cursor`), and no `conn.close()` ever happens: the physical connection
opened by `Database.__enter__` is left open, contradicting the claim that a
Database-parent `Select` closes everything down to the physical connection.
The internal scope references are nevertheless cleared. -/
theorem select_database_exit_bug :
    Select.enter Parent.database =
      ([.connOpen, .connEnter, .cursorOpen, .cursorEnter],
        .ok ⟨.database, some ⟨true⟩, some ⟨false⟩, true⟩) ∧
    Select.exitScope false ⟨.database, some ⟨true⟩, some ⟨false⟩, true⟩ =
      ([.cursorExit, .connExit], some .assertionError,
        ⟨.database, none, none, false⟩) ∧
    Ev.connClose ∉
      (Select.exitScope false ⟨.database, some ⟨true⟩, some ⟨false⟩, true⟩).1 := by
  refine ⟨rfl, rfl, ?_⟩
  decide

/-- C2 (failing input): `GlobalSession(a₁)`, `get()`, `GlobalSession(a₂)`,
`get()`.  The re-initialization closes the prior connection and clears
`__session`, but leaves `__database` set; the following `get()` therefore
constructs nothing (no connection is opened) and returns the cleared
`__session`, i.e. `None`, instead of a fresh `Database`/`Session` pair built
from the newly stored arguments. -/
theorem global_session_reinit_bug :
    GlobalSession.init (some 1) GlobalSessionState.initial = ([], ⟨none, none, 1⟩) ∧
    GlobalSession.get ⟨none, none, 1⟩ =
      ([.connOpen], some ⟨false⟩, ⟨some 1, some ⟨false⟩, 1⟩) ∧
    GlobalSession.init (some 2) ⟨some 1, some ⟨false⟩, 1⟩ =
      ([.connClose], ⟨some 1, none, 2⟩) ∧
    GlobalSession.get ⟨some 1, none, 2⟩ = ([], none, ⟨some 1, none, 2⟩) :=
  ⟨rfl, rfl, rfl, rfl⟩

end Easypsyco
